import Mathlib

set_option maxRecDepth 200000

/-!
Verification development for the pi-supernode repository.

Go strings are byte slices; we model them as lists of natural numbers below 256
(`GoStr`).  All business rules in the repository are substring checks over such
strings (`strings.Contains`, `strings.HasPrefix`), which we embed bytewise.
The "quantum" primitives are `crypto/sha3` keyed digests rendered as lowercase
hex via `fmt.Sprintf`; we embed SHA3-256 / SHA3-512 concretely (FIPS-202
Keccak over 64-bit lanes carried as `Nat` mod 2^64), so every definition is
executable and was checked against the FIPS test vectors.
External effects enter each embedded operation as explicit parameters: a
TensorFlow verdict is an `Option` (`none` = model-call failure, which triggers
the documented textual fallback), wall-clock readings and random draws are
arguments.  The fire-and-forget `go agent.Learn(...)` calls mutate only the
RL agent's write-only rule list and are outside the per-operation state, per
spec §5.

Part 1 gathers every definition; part 2 the theorems.
-/

namespace PiSupernode

/-- A Go string: a list of byte values.  `strings.Contains` and friends work
    bytewise, so this is the faithful carrier. -/
abbrev GoStr := List Nat

/-- Byte list of an ASCII string literal (every literal in the repository is
    ASCII, where UTF-8 bytes coincide with code points). -/
def lit (s : String) : GoStr := s.toList.map Char.toNat

/-- `goStarts pat s` : does `s` start with `pat`?  Embeds `strings.HasPrefix(s, pat)`. -/
def goStarts : GoStr → GoStr → Bool
  | p :: ps, c :: cs => p == c && goStarts ps cs
  | pat, _ => pat.isEmpty

/-- `goContains s pat` : does `pat` occur contiguously in `s`?
    Embeds `strings.Contains(s, pat)` (and the byte-loop `contains` helper of
    the Solidity contracts, which has the same semantics including the empty
    pattern). -/
def goContains : GoStr → GoStr → Bool
  | [], pat => pat.isEmpty
  | c :: cs, pat => goStarts pat (c :: cs) || goContains cs pat

/-- Model verdict resolution: the source calls the inference model and falls
    back to a local rule when the call errors. -/
def modelOr (verdict : Option Bool) (fallback : Bool) : Bool :=
  match verdict with
  | some b => b
  | none => fallback

/-- Is an `Except` result a success?  Mirrors `err == nil` checks by callers. -/
def exOk {α : Type} : Except GoStr α → Bool
  | Except.ok _ => true
  | Except.error _ => false

/-- Payload of a successful `Except` result (empty string otherwise). -/
def okPayload : Except GoStr GoStr → GoStr
  | Except.ok m => m
  | Except.error _ => []

/-! ### SHA-3 (FIPS-202), the `crypto/sha3` primitive

`sha3.Sum256` / `sha3.Sum512` from the Go standard library, embedded as the
Keccak sponge over byte lists. -/

def U64 : Nat := 18446744073709551616

/-- Rotate a 64-bit lane left by `n`. -/
def rotl64 (x n : Nat) : Nat := ((x <<< n) ||| (x >>> (64 - n))) % U64

/-- Lane `(x, y)` of a Keccak state. -/
def lane (A : List Nat) (x y : Nat) : Nat := A.getD (x + 5 * y) 0

def keccakTheta (A : List Nat) : List Nat :=
  let C := (List.range 5).map (fun x =>
    lane A x 0 ^^^ lane A x 1 ^^^ lane A x 2 ^^^ lane A x 3 ^^^ lane A x 4)
  let D := (List.range 5).map (fun x =>
    C.getD ((x + 4) % 5) 0 ^^^ rotl64 (C.getD ((x + 1) % 5) 0) 1)
  (List.range 25).map (fun i => A.getD i 0 ^^^ D.getD (i % 5) 0)

/-- Overwrite position `i` of a list. -/
def setNth (l : List Nat) (i v : Nat) : List Nat :=
  l.take i ++ v :: l.drop (i + 1)

/-- Rotation offsets, flat-indexed by `x + 5 * y`, generated by the FIPS-202
    coordinate walk: starting from lane (1,0), step `t` assigns offset
    `(t+1)(t+2)/2 mod 64` and moves to `(y, 2x+3y mod 5)`. -/
def rhoOffsets : List Nat :=
  ((List.range 24).foldl (fun acc t =>
      let x := acc.2.1
      let y := acc.2.2
      (setNth acc.1 (x + 5 * y) ((t + 1) * (t + 2) / 2 % 64),
       (y, (2 * x + 3 * y) % 5)))
    (List.replicate 25 0, (1, 0))).1

def keccakRhoPi (A : List Nat) : List Nat :=
  (List.range 25).map (fun i =>
    let x := i % 5
    let y := i / 5
    let src := (x + 3 * y) % 5 + 5 * x
    rotl64 (A.getD src 0) (rhoOffsets.getD src 0))

def keccakChi (A : List Nat) : List Nat :=
  (List.range 25).map (fun i =>
    let x := i % 5
    let y := i / 5
    A.getD i 0 ^^^ ((A.getD ((x + 1) % 5 + 5 * y) 0 ^^^ (U64 - 1)) &&&
      A.getD ((x + 2) % 5 + 5 * y) 0))

/-- One step of the degree-8 LFSR of FIPS-202 (polynomial
    x^8 + x^6 + x^5 + x^4 + 1): output bit and next state. -/
def lfsrBit (s : Nat) : Nat × Nat :=
  (s % 2, if s < 128 then (2 * s) % 256 else ((2 * s) ^^^ 113) % 256)

/-- One round constant: seven LFSR output bits placed at bit positions
    `2^j - 1`. -/
def rcRound (s : Nat) : Nat × Nat :=
  (List.range 7).foldl (fun acc j =>
    let b := lfsrBit acc.2
    (acc.1 + (b.1 <<< (2 ^ j - 1)), b.2)) (0, s)

/-- The 24 round constants, generated from LFSR state 1. -/
def keccakRC : List Nat :=
  ((List.range 24).foldl (fun acc _ =>
      let r := rcRound acc.2
      (acc.1 ++ [r.1], r.2)) ([], 1)).1

def keccakIota (rc : Nat) : List Nat → List Nat
  | [] => []
  | a0 :: rest => (a0 ^^^ rc) :: rest

def keccakF (A : List Nat) : List Nat :=
  keccakRC.foldl (fun st rc => keccakIota rc (keccakChi (keccakRhoPi (keccakTheta st)))) A

/-- SHA3 `pad10*1` with the 0x06 domain byte. -/
def sha3Pad (rate : Nat) (m : List Nat) : List Nat :=
  let r := rate - m.length % rate
  if r == 1 then m ++ [0x86]
  else m ++ [0x06] ++ List.replicate (r - 2) 0 ++ [0x80]

/-- Split into chunks of `k` bytes (fuel-driven, structurally recursive). -/
def chunksOf (k : Nat) : Nat → List Nat → List (List Nat)
  | 0, _ => []
  | _, [] => []
  | fuel + 1, bs => bs.take k :: chunksOf k fuel (bs.drop k)

/-- Load 8 little-endian bytes into a lane. -/
def loadLane (bs : List Nat) : Nat := bs.foldr (fun b acc => b + 256 * acc) 0

/-- One lane to its 8 little-endian bytes. -/
def laneBytes (v : Nat) : List Nat :=
  [v % 256, v >>> 8 % 256, v >>> 16 % 256, v >>> 24 % 256,
   v >>> 32 % 256, v >>> 40 % 256, v >>> 48 % 256, v >>> 56 % 256]

def xorBlock (st : List Nat) (block : List Nat) : List Nat :=
  let lanes := (chunksOf 8 block.length block).map loadLane
  (List.range 25).map (fun i => st.getD i 0 ^^^ lanes.getD i 0)

/-- The Keccak sponge restricted to a single squeeze (enough for the 256/512
    output sizes used in the repository). -/
def sha3Bytes (rate outLen : Nat) (m : List Nat) : List Nat :=
  let padded := sha3Pad rate m
  let blocks := chunksOf rate padded.length padded
  let final := blocks.foldl (fun st b => keccakF (xorBlock st b)) (List.replicate 25 0)
  ((final.map laneBytes).flatten).take outLen

/-- `sha3.Sum256`. -/
def sha3_256 (m : List Nat) : List Nat := sha3Bytes 136 32 m

/-- `sha3.Sum512`. -/
def sha3_512 (m : List Nat) : List Nat := sha3Bytes 72 64 m

/-! ### Rendering helpers, `fmt.Sprintf` verbs -/

/-- Lowercase hex digit of a value below 16 (byte 48 is the zero digit, byte
    97 the letter a). -/
def hexDigitByte (n : Nat) : Nat := if n < 10 then 48 + n else 87 + n

/-- Go renders a byte slice with the x verb as two lowercase hex digits per
    byte. -/
def bytesToHex : List Nat → GoStr
  | [] => []
  | b :: bs => hexDigitByte (b / 16 % 16) :: hexDigitByte (b % 16) :: bytesToHex bs

/-- Membership of a byte in the lowercase-hex alphabet. -/
def isHexByte (b : Nat) : Bool := (48 ≤ b && b ≤ 57) || (97 ≤ b && b ≤ 102)

/-- Decimal rendering of a natural number (the d verb). -/
def natToDec (n : Nat) : GoStr := (Nat.toDigits 10 n).map Char.toNat

/-- Decimal rendering of a Go `int` (byte 45 is the minus sign). -/
def intToDec (i : Int) : GoStr :=
  if i < 0 then 45 :: natToDec i.natAbs else natToDec i.toNat

end PiSupernode

namespace PiSupernode.AutonomousEnforcer
/-! ### Autonomous Transaction Enforcement Core

`AutonomousEnforcer` (src/unnamed/part_008, third compilation unit).  State
touched by `EnforceTransaction` is the rejection log; the TensorFlow verdict of
`predictVolatility` is the `Option Bool` parameter. -/

/-- `sha3.Sum512([]byte("hyper-tech-key"))`, the per-process key material. -/
def quantumKey : GoStr := sha3_512 (lit "hyper-tech-key")

/-- `quantumDecrypt`: a keyed SHA3-256 fingerprint of the raw transaction
    text rendered as lowercase hex (`fmt.Sprintf` with the x verb).  The Go
    function also returns an error value that is always nil. -/
def quantumDecrypt (tx : GoStr) : GoStr := bytesToHex (sha3_256 (tx ++ quantumKey))

/-- The manual fallback volatility check of `EnforceTransaction` step 2. -/
def fallbackVolatile (s : GoStr) : Bool :=
  goContains s (lit "volatile") || goContains s (lit "crypto") ||
  goContains s (lit "blockchain") || goContains s (lit "defi") ||
  goContains s (lit "token")

/-- `isStablecoin`: the loop over the `USDC`/`USDT`/`DAI` slice, unrolled. -/
def isStablecoin (tx : GoStr) : Bool :=
  goContains tx (lit "USDC") || goContains tx (lit "USDT") || goContains tx (lit "DAI")

/-- `EnforceTransaction`.  Returns the Go `(bool, error)` pair together with
    the updated rejection log. -/
def EnforceTransaction (modelVolatile : Option Bool) (rejectLog : List GoStr)
    (tx : GoStr) : (Bool × Option GoStr) × List GoStr :=
  let decryptedTx := quantumDecrypt tx
  let isVolatile := modelOr modelVolatile (fallbackVolatile decryptedTx)
  if isVolatile then
    ((false, none), rejectLog ++ [decryptedTx])
  else if !isStablecoin decryptedTx then
    ((false, none), rejectLog ++ [decryptedTx])
  else
    ((true, none), rejectLog)

end PiSupernode.AutonomousEnforcer

namespace PiSupernode.PiCoinEnforcer
/-! ### Pi-Coin Stablecoin Enforcer self-adaptation tick

`PiCoinStablecoinEnforcer.SelfAdapt` and `PiCoinRLAgent.EvolvePiCoinRules`
(src/pi-ecosystem-protocol/src/core/pi_coin_stablecoin_enforcer.go). -/

/-- The reject log together with the RL agent's rule list. -/
structure State where
  rejectLog : List GoStr
  rules : List GoStr

/-- The seed rules of `NewPiCoinRLAgent`. -/
def initialRules : List GoStr :=
  [lit "enforce $314,159 value", lit "reject external origins",
   lit "allow stablecoin transfers only"]

/-- `EvolvePiCoinRules` prints the current rules and changes nothing. -/
def EvolvePiCoinRules (rules : List GoStr) : List GoStr := rules

/-- One elapsed 30-minute tick of `SelfAdapt`: over the high-rejection
    threshold it calls `EvolvePiCoinRules` and resets the log. -/
def SelfAdaptTick (s : State) : State :=
  if s.rejectLog.length > 50 then
    { rejectLog := [], rules := EvolvePiCoinRules s.rules }
  else s

/-- A state holding exactly 51 rejection entries. -/
def state51 : State :=
  { rejectLog := List.replicate 51 (lit "Rejected origin: exchange"),
    rules := initialRules }

/-- A state holding exactly 50 rejection entries. -/
def state50 : State :=
  { rejectLog := List.replicate 50 (lit "Rejected origin: exchange"),
    rules := initialRules }

end PiSupernode.PiCoinEnforcer

namespace PiSupernode.RegulatoryEnforcer
/-! ### Global Regulatory Compliance Enforcer

`PiCoinRegulatoryComplianceEnforcer`
(src/pi-ecosystem-protocol/src/core/pi_coin_regulatory_compliance_enforcer.go).
The static regulation map is seeded all-true on the five listed keys; a Go map
read of any other key yields the zero value false. -/

def regulations (j : GoStr) : Bool :=
  j == lit "IMF" || j == lit "BIS" || j == lit "FATF" || j == lit "FINMA" ||
  j == lit "SEC"

/-- The textual fallback of `validateCompliance` on model failure. -/
def fallbackCompliant (tx : GoStr) : Bool :=
  goContains tx (lit "$314,159") && goContains tx (lit "Pi")

def isGlobalStablecoinCompliant (tx : GoStr) : Bool :=
  goContains tx (lit "$314,159") && goContains tx (lit "reserve") &&
  goContains tx (lit "transparent")

def quantumKey : GoStr := sha3_512 (lit "pi-coin-compliance-hyper-key")

/-- `quantumAudit`: the audit fingerprint computed on the accept path (it is
    only printed, never stored). -/
def quantumAudit (data : GoStr) : GoStr := bytesToHex (sha3_256 (data ++ quantumKey))

/-- `EnforcePiCoinRegulatoryCompliance`.  Returns the Go `(bool, error)` pair
    and the updated compliance log. -/
def EnforcePiCoinRegulatoryCompliance (modelCompliant : Option Bool)
    (log : List GoStr) (tx jurisdiction : GoStr) (userKYC : Bool) :
    (Bool × Option GoStr) × List GoStr :=
  if !regulations jurisdiction || !userKYC then
    ((false, some (lit "rejected: non-compliant jurisdiction or missing KYC")),
     log ++ [lit "rejected: " ++ jurisdiction])
  else
    let isCompliant := modelOr modelCompliant (fallbackCompliant tx)
    if !isCompliant then
      ((false, none), log ++ [lit "non-compliant: " ++ tx])
    else if !isGlobalStablecoinCompliant tx then
      ((false, some (lit "breach: Pi Coin must comply with global stablecoin standards")),
       log ++ [lit "breach: " ++ tx])
    else
      ((true, none), log)

/-- Compliance log together with the RL agent's rule list, for the tick. -/
structure CState where
  complianceLog : List GoStr
  rules : List GoStr

/-- The breach counter of `SelfAdapt`: entries starting with breach or
    rejected markers. -/
def breachCount (log : List GoStr) : Nat :=
  (log.filter (fun e => goStarts (lit "breach") e || goStarts (lit "rejected") e)).length

/-- `EvolveComplianceRules` prints the current rules and changes nothing. -/
def EvolveComplianceRules (rules : List GoStr) : List GoStr := rules

/-- One elapsed 30-minute tick of the compliance `SelfAdapt`. -/
def SelfAdaptTick (s : CState) : CState :=
  if breachCount s.complianceLog > 50 then
    { complianceLog := [], rules := EvolveComplianceRules s.rules }
  else s

/-- A compliance state holding exactly 51 qualifying entries. -/
def cstate51 : CState :=
  { complianceLog := List.replicate 51 (lit "breach: Pi Coin tx"),
    rules := [lit "enforce IMF standards", lit "validate KYC globally",
              lit "audit with quantum"] }

/-- A compliance state holding exactly 50 qualifying entries. -/
def cstate50 : CState :=
  { complianceLog := List.replicate 50 (lit "breach: Pi Coin tx"),
    rules := [lit "enforce IMF standards", lit "validate KYC globally",
              lit "audit with quantum"] }

end PiSupernode.RegulatoryEnforcer

namespace PiSupernode.IssuanceEngine
/-! ### Stablecoin Issuance Engine

`StablecoinIssuanceEngine` (src/unnamed/part_008, first compilation unit).
The model prediction is an `Option Int` (`none` = prediction error, replaced
by the random fallback draw passed as `rndFallback`).  The pool is a Go map
from asset code to `int`, zero on absent keys. -/

structure State where
  stablecoinPool : GoStr → Int
  issuanceLog : List GoStr

/-- The seed pool of `NewStablecoinIssuanceEngine`. -/
def initialPool : GoStr → Int := fun t =>
  if t = lit "USDC" then 1000 else if t = lit "USDT" then 1000 else 0

def initialState : State := { stablecoinPool := initialPool, issuanceLog := [] }

/-- `oracleValidate`. -/
def oracleValidate (request : GoStr) : Bool :=
  goContains request (lit "stablecoin") && !goContains request (lit "volatile") &&
  !goContains request (lit "crypto") && !goContains request (lit "blockchain")

/-- `extractStablecoinType` (first match wins; empty string when absent). -/
def extractStablecoinType (request : GoStr) : GoStr :=
  if goContains request (lit "USDC") then lit "USDC"
  else if goContains request (lit "USDT") then lit "USDT"
  else []

def quantumKey : GoStr := sha3_512 (lit "issuance-hyper-key")

/-- The resolved predicted amount (step 2 of `IssueStablecoin`). -/
def resolvedAmount (modelAmount : Option Int) (rndFallback : Int) : Int :=
  match modelAmount with
  | some a => a
  | none => rndFallback

/-- The keyed issuance ID over `type:amount:key`. -/
def issuanceID (t : GoStr) (amount : Int) : GoStr :=
  bytesToHex (sha3_256 (t ++ lit ":" ++ intToDec amount ++ lit ":" ++ quantumKey))

/-- `IssueStablecoin`. -/
def IssueStablecoin (modelAmount : Option Int) (rndFallback : Int) (st : State)
    (request : GoStr) : Except GoStr GoStr × State :=
  if !oracleValidate request then
    (Except.error (lit "oracle validation failed: non-stablecoin request"), st)
  else
    let amount := resolvedAmount modelAmount rndFallback
    let t := extractStablecoinType request
    if t = [] then
      (Except.error (lit "rejected: only stablecoin issuance allowed"),
       { st with issuanceLog := st.issuanceLog ++ [lit "Rejected: No stablecoin type"] })
    else if st.stablecoinPool t < amount then
      (Except.error (lit "insufficient pool for " ++ t), st)
    else
      (Except.ok (lit "Issued " ++ intToDec amount ++ lit " " ++ t ++
          lit " (ID: " ++ issuanceID t amount ++ lit ")"),
       { stablecoinPool := fun x => if x = t then st.stablecoinPool x - amount
                                    else st.stablecoinPool x,
         issuanceLog := st.issuanceLog ++
           [lit "Issued " ++ intToDec amount ++ lit " " ++ t] })

end PiSupernode.IssuanceEngine

namespace PiSupernode.Ledger
/-! ### Append-Only Stablecoin Ledger

`StablecoinLedger.AddEntry` (src/unnamed/part_006).  `time.Now()` enters as
the `now` parameter; the model verdict of `validateEntry` as `Option Bool`
(fallback on failure: valid). -/

structure Entry where
  id : GoStr
  timestamp : Nat
  data : GoStr
  hash : GoStr

structure State where
  entries : List Entry
  ledgerLog : List GoStr

def initialState : State := { entries := [], ledgerLog := [] }

def quantumKey : GoStr := sha3_512 (lit "ledger-hyper-key")

def quantumHash (data : GoStr) : GoStr := bytesToHex (sha3_256 (data ++ quantumKey))

/-- The zero-trust forbidden-substring check of `AddEntry`. -/
def containsForbidden (data : GoStr) : Bool :=
  goContains data (lit "volatile") || goContains data (lit "crypto") ||
  goContains data (lit "blockchain") || goContains data (lit "defi") ||
  goContains data (lit "token")

/-- The sequence identifier `entry_<n>`. -/
def entryId (n : Nat) : GoStr := lit "entry_" ++ natToDec n

/-- `AddEntry`. -/
def AddEntry (modelValid : Option Bool) (now : Nat) (st : State) (data : GoStr) :
    Except GoStr Unit × State :=
  if containsForbidden data then
    (Except.error (lit "rejected: volatile data not added to ledger"),
     { st with ledgerLog := st.ledgerLog ++ [lit "rejected: " ++ data] })
  else if !modelOr modelValid true then
    (Except.error (lit "invalid entry, not added"),
     { st with ledgerLog := st.ledgerLog ++ [lit "invalid: " ++ data] })
  else
    (Except.ok (),
     { entries := st.entries ++
         [{ id := entryId (st.entries.length + 1), timestamp := now,
            data := data, hash := quantumHash data }],
       ledgerLog := st.ledgerLog ++ [lit "added: " ++ data] })

/-- The sequence-identifier invariant: the stored IDs are exactly
    `entry_1 … entry_n` in order. -/
def seqOK (st : State) : Prop :=
  st.entries.map Entry.id = (List.range st.entries.length).map (fun i => entryId (i + 1))

end PiSupernode.Ledger

namespace PiSupernode.Logger
/-! ### Anomaly-Aware Audit Logger

`HyperLogger.LogEvent` (src/unnamed/part_007).  The durable append-mode file
is carried as the list of written lines; the RFC3339 clock reading enters as
`nowStr`; the anomaly verdict of `detectAnomaly` (score above 0.7) as
`Option Bool` (fallback on model failure: not anomalous).  The always-succeeding
file write of the source is modeled as an append. -/

structure State where
  logEntries : List GoStr
  fileLines : List GoStr

def initialState : State := { logEntries := [], fileLines := [] }

def quantumKey : GoStr := sha3_512 (lit "logger-hyper-key")

/-- `quantumSecure`: the timestamped, keyed-fingerprinted log line. -/
def quantumSecure (nowStr event : GoStr) : GoStr :=
  lit "[" ++ nowStr ++ lit "] " ++ event ++ lit " (Hash: " ++
  bytesToHex (sha3_256 (event ++ quantumKey)) ++ lit ")"

def containsForbidden (event : GoStr) : Bool :=
  goContains event (lit "volatile") || goContains event (lit "crypto") ||
  goContains event (lit "blockchain") || goContains event (lit "defi") ||
  goContains event (lit "token")

/-- `LogEvent`. -/
def LogEvent (modelAnomaly : Option Bool) (nowStr : GoStr) (st : State)
    (event : GoStr) : Except GoStr Unit × State :=
  if containsForbidden event then
    (Except.error (lit "rejected: volatile event not logged"), st)
  else if modelOr modelAnomaly false then
    (Except.error (lit "anomaly logged, but rejected"),
     { st with logEntries := st.logEntries ++ [lit "anomaly: " ++ event] })
  else
    let secureEntry := quantumSecure nowStr event
    (Except.ok (),
     { logEntries := st.logEntries ++ [secureEntry],
       fileLines := st.fileLines ++ [secureEntry] })

end PiSupernode.Logger

namespace PiSupernode.Converter
/-! ### Pi Coin Token Converter

`PiCoinConverter.ConvertPiCoin`
(src/pi-ecosystem-protocol/src/utils/pi_coin_converter.go).  The Go `amount`
is a float64; every caller in the repository passes an integral value, for
which float equality with the fixed 314159.0 and the `%.0f` rendering agree
with integer semantics, so it is carried as `Int`. -/

def allowedOriginCheck (origin : GoStr) : Bool :=
  goContains origin (lit "mining") || goContains origin (lit "rewards") ||
  goContains origin (lit "p2p")

def allowedTargetCheck (target : GoStr) : Bool :=
  goContains target (lit "USDC") || goContains target (lit "USDT") ||
  goContains target (lit "fiat")

def quantumKey : GoStr := sha3_512 (lit "pi-coin-converter-hyper-key")

def quantumHash (data : GoStr) : GoStr := bytesToHex (sha3_256 (data ++ quantumKey))

/-- `ConvertPiCoin`.  Returns the Go `(string, error)` pair and the updated
    conversion log. -/
def ConvertPiCoin (modelSuccess : Option Bool) (log : List GoStr)
    (origin target : GoStr) (amount : Int) : Except GoStr GoStr × List GoStr :=
  if !allowedOriginCheck origin || !allowedTargetCheck target then
    (Except.error (lit "rejected: Pi Coin must be from mining/rewards/P2P and convert to stablecoin/fiat only"),
     log ++ [lit "rejected origin/target: " ++ origin ++ lit "/" ++ target])
  else if !modelOr modelSuccess (amount == 314159) then
    (Except.error (lit "conversion failed: invalid Pi Coin amount or rules"),
     log ++ [lit "failed conversion: " ++ intToDec amount])
  else
    let conversionData := lit "Pi Coin " ++ intToDec amount ++ lit " from " ++
      origin ++ lit " to " ++ target
    (Except.ok (lit "Converted Pi Coin $314,159 from " ++ origin ++ lit " to " ++
       target ++ lit " (Hash: " ++ quantumHash conversionData ++ lit ")"),
     log ++ [lit "converted: " ++ conversionData])

end PiSupernode.Converter

namespace PiSupernode.IssuanceOracle
/-! ### On-chain issuance oracle contract

`IssuanceOracle.issueStablecoin`
(src/pi-ecosystem-protocol/src/smart_contracts/issuance_oracle.sol).
A revert is `Except.error`; since the updated state is only returned on
success, reverts roll back by construction.  `issuanceRecords` is keyed in the
contract by `keccak256(abi.encodePacked(asset, amount, issuer, timestamp))`;
we key it by that preimage tuple directly (keccak collisions are out of
model).  `getAIPrediction` sends a Chainlink request — which touches only the
external oracle network, none of the fields modeled here — and immediately
reads back `predictors[issuer].predictedAmount`. -/

abbrev Addr := Nat

structure ContractState where
  predictedAmount : Addr → Nat
  confidence : Addr → Nat
  authorizedIssuers : Addr → Bool
  issuanceRecords : GoStr × Nat × Addr × Nat → Nat
  issuanceRules : List GoStr
  failureCount : Nat
  totalIssued : Nat

/-- The state installed by the constructor when `deployer` deploys the
    contract: all mappings hold zero values, the deployer is the only
    authorized issuer. -/
def deployState (deployer : Addr) : ContractState :=
  { predictedAmount := fun _ => 0,
    confidence := fun _ => 0,
    authorizedIssuers := fun a => a == deployer,
    issuanceRecords := fun _ => 0,
    issuanceRules := [lit "predict amount via AI", lit "use quantum hash"],
    failureCount := 0,
    totalIssued := 0 }

/-- `isStablecoin` of the contract: keccak-equality of the full asset string,
    i.e. exact string equality. -/
def isStablecoinSol (asset : GoStr) : Bool :=
  asset == lit "USDC" || asset == lit "USDT"

/-- `isRejectedAsset`, via the contract's byte-loop `contains`. -/
def isRejectedAsset (asset : GoStr) : Bool :=
  goContains asset (lit "volatile") || goContains asset (lit "crypto") ||
  goContains asset (lit "defi") || goContains asset (lit "blockchain") ||
  goContains asset (lit "token")

/-- `issueStablecoin(asset, issuer)` called by `sender` at `timestamp`:
    modifiers first, then the body.  On success returns the new state and the
    issued amount. -/
def issueStablecoin (st : ContractState) (asset : GoStr) (sender issuer : Addr)
    (timestamp : Nat) : Except GoStr (ContractState × Nat) :=
  if !st.authorizedIssuers sender then
    Except.error (lit "Only authorized issuer")
  else if !isStablecoinSol asset then
    Except.error (lit "Only stablecoin issuance allowed")
  else if isRejectedAsset asset then
    Except.error (lit "Rejected: Volatile or blockchain asset")
  else
    let amount := st.predictedAmount issuer
    if amount = 0 then
      Except.error (lit "AI predicted zero issuance")
    else
      let key := (asset, amount, issuer, timestamp)
      if !(st.issuanceRecords key == 0) then
        Except.error (lit "Duplicate issuance rejected")
      else
        let st1 := { st with
          issuanceRecords := fun k => if k = key then amount else st.issuanceRecords k,
          totalIssued := st.totalIssued + amount }
        let st2 :=
          if st1.failureCount > 5 then
            { st1 with
              issuanceRules := st1.issuanceRules ++ [lit "increase AI confidence threshold"],
              failureCount := 0 }
          else st1
        Except.ok (st2, amount)

end PiSupernode.IssuanceOracle

namespace PiSupernode

/-! ### Rule-Evolution ticks of the remaining paragraph-4.2 services

Every self-evolution loop in the repository has one body shape: count the
qualifying Event-Log entries; past the threshold, call the RL agent's
Evolve/Tune helper — which only prints the rule list — and reset the log.
The services differ only in which entries qualify and in the threshold, so
the shape is defined once and instantiated per service, each instance named
after its source function.  The Issuance Engine is the one service with an
inverted, low-activity trigger and gets its own body. -/

/-- The pair of fields a self-evolution tick touches: the service's event
    log and its RL agent's rule list. -/
structure EvoState where
  eventLog : List GoStr
  rules : List GoStr

/-- Count of log entries starting with one of the given markers
    (`strings.HasPrefix` loop shared by the prefix-filtering ticks). -/
def qualCount (ps : List GoStr) (log : List GoStr) : Nat :=
  (log.filter (fun e => ps.any (fun p => goStarts p e))).length

/-- A tick counting prefix-qualifying entries against a threshold; the
    Evolve helper only prints, so the rules are returned unchanged. -/
def prefixTick (ps : List GoStr) (threshold : Nat) (s : EvoState) : EvoState :=
  if qualCount ps s.eventLog > threshold then
    { eventLog := [], rules := s.rules }
  else s

/-- A tick counting the whole log against a threshold. -/
def lenTick (threshold : Nat) (s : EvoState) : EvoState :=
  if s.eventLog.length > threshold then
    { eventLog := [], rules := s.rules }
  else s

/-- `AutonomousEnforcer.SelfHeal` (src/unnamed/part_008): hourly tick, all
    log entries, threshold 100; `EvolveRules` only prints. -/
def AutonomousEnforcer.SelfHealTick : EvoState → EvoState := lenTick 100

/-- `ZeroTrustValidator.SelfAdapt` (src/pi-ecosystem-protocol/src/core/
    zero_trust_validator.go): 45-minute tick, all entries, threshold 75;
    `EvolveValidation` only prints. -/
def ZeroTrustValidator.SelfAdaptTick : EvoState → EvoState := lenTick 75

/-- `IOSCOComplianceEnforcer.SelfAdapt` (src/pi-ecosystem-protocol/src/core/
    iosco_compliance_enforcer.go): breach/rejected prefixes, threshold 50;
    `EvolveIOSCOComplianceRules` only prints. -/
def IOSCOEnforcer.SelfAdaptTick : EvoState → EvoState :=
  prefixTick [lit "breach", lit "rejected"] 50

/-- `ILOComplianceEnforcer.SelfAdapt` (src/unnamed/part_008, second unit):
    breach/rejected prefixes, threshold 50; `EvolveILOComplianceRules` only
    prints. -/
def ILOEnforcer.SelfAdaptTick : EvoState → EvoState :=
  prefixTick [lit "breach", lit "rejected"] 50

/-- `StablecoinLedger.SelfAudit` (src/unnamed/part_006): rejected/invalid
    prefixes, threshold 10; `EvolveLedger` only prints. -/
def Ledger.SelfAuditTick : EvoState → EvoState :=
  prefixTick [lit "rejected", lit "invalid"] 10

/-- `HyperLogger.SelfMonitor` (src/unnamed/part_007): anomaly prefix,
    threshold 10; `EvolveLogger` only prints. -/
def Logger.SelfMonitorTick : EvoState → EvoState :=
  prefixTick [lit "anomaly"] 10

/-- `QuantumBackup.SelfRecover` (src/unnamed/part_007, second unit):
    rejected/low-priority prefixes, threshold 15; `EvolveBackup` only
    prints. -/
def QuantumBackup.SelfRecoverTick : EvoState → EvoState :=
  prefixTick [lit "rejected", lit "low priority"] 15

/-- `PiCoinConverter.SelfOptimize` (src/pi-ecosystem-protocol/src/utils/
    pi_coin_converter.go): failed/rejected prefixes, threshold 25;
    `EvolveConverterRules` only prints. -/
def Converter.SelfOptimizeTick : EvoState → EvoState :=
  prefixTick [lit "failed", lit "rejected"] 25

/-- `StablecoinIssuanceEngine.SelfOptimize` (src/unnamed/part_008): the one
    inverted trigger of the family — it fires when the log holds fewer than
    10 entries (low activity); `EvolveIssuance` only prints. -/
def IssuanceEngine.SelfOptimizeTick (s : EvoState) : EvoState :=
  if s.eventLog.length < 10 then
    { eventLog := [], rules := s.rules }
  else s

/-- `HyperTester.SelfImprove` (src/pi-ecosystem-protocol/tests/
    pi_coin_stablecoin_tests.go, second unit): failed/rejected prefixes,
    threshold 8; `EvolveTests` only prints. -/
def HyperTester.SelfImproveTick : EvoState → EvoState :=
  prefixTick [lit "failed", lit "rejected"] 8

/-- `PiCoinHyperTester.SelfImprove` (same tests file, first unit): same
    prefixes and threshold; `EvolvePiCoinTests` only prints. -/
def PiCoinHyperTester.SelfImproveTick : EvoState → EvoState :=
  prefixTick [lit "failed", lit "rejected"] 8

/-- `LoadTester.SelfScale` (src/unnamed/part_003): failed/rejected prefixes,
    threshold 12; `EvolveLoad` only prints. -/
def LoadTester.SelfScaleTick : EvoState → EvoState :=
  prefixTick [lit "failed", lit "rejected"] 12

/-- `PiCoinLoadTester.SelfScale` (src/unnamed/part_004): same prefixes and
    threshold; `EvolvePiCoinLoad` only prints. -/
def PiCoinLoadTester.SelfScaleTick : EvoState → EvoState :=
  prefixTick [lit "failed", lit "rejected"] 12

/-- `AutonomousGraphQLServer.SelfTune` (src/unnamed/part_005): whole query
    log, threshold 100; `TunePerformance` only prints. -/
def GraphQLServer.SelfTuneTick : EvoState → EvoState := lenTick 100

/-- `AutonomousPiCoinAPI.SelfTune` (src/pi-ecosystem-protocol/src/api/
    pi_coin_stablecoin_api.go): whole query log, threshold 100;
    `TunePiCoinAPI` only prints. -/
def PiCoinAPI.SelfTuneTick : EvoState → EvoState := lenTick 100

/-- A concrete tick state: `n` copies of one log entry over two seed rules. -/
def evoN (n : Nat) (e : String) : EvoState :=
  { eventLog := List.replicate n (lit e), rules := [lit "rule one", lit "rule two"] }

end PiSupernode

namespace PiSupernode
/-! ## Part 2: theorems -/

theorem goContains_nil_pat (s : GoStr) : goContains s [] = true := by
  cases s <;> simp [goContains, goStarts, List.isEmpty]

theorem goStarts_mem {pat s : GoStr} (h : goStarts pat s = true) :
    ∀ c ∈ pat, c ∈ s := by
  induction pat generalizing s with
  | nil => intro c hc; cases hc
  | cons p ps ih =>
      cases s with
      | nil => simp [goStarts] at h
      | cons a as =>
          simp only [goStarts, Bool.and_eq_true, beq_iff_eq] at h
          intro c hc
          rcases List.mem_cons.mp hc with hc | hc
          · exact List.mem_cons.mpr (Or.inl (hc.trans h.1))
          · exact List.mem_cons.mpr (Or.inr (ih h.2 c hc))

theorem goContains_mem {s pat : GoStr} (h : goContains s pat = true) :
    ∀ c ∈ pat, c ∈ s := by
  induction s with
  | nil =>
      intro c hc
      simp only [goContains, List.isEmpty_iff] at h
      subst h; cases hc
  | cons a as ih =>
      simp only [goContains, Bool.or_eq_true] at h
      intro c hc
      rcases h with h | h
      · exact goStarts_mem h c hc
      · exact List.mem_cons.mpr (Or.inr (ih h c hc))

theorem goContains_eq_false_of_missing {s pat : GoStr} {b : Nat}
    (hb : b ∈ pat) (hs : b ∉ s) : goContains s pat = false := by
  cases h : goContains s pat
  · rfl
  · exact absurd (goContains_mem h b hb) hs

theorem goStarts_append {pat s : GoStr} (t : GoStr) (h : goStarts pat s = true) :
    goStarts pat (s ++ t) = true := by
  induction pat generalizing s with
  | nil => simp [goStarts]
  | cons p ps ih =>
      cases s with
      | nil => simp [goStarts] at h
      | cons a as =>
          simp only [goStarts, Bool.and_eq_true, beq_iff_eq] at h ⊢
          exact ⟨h.1, ih h.2⟩

/-- Containment is preserved when the string grows on the right. -/
theorem goContains_append_left {s pat : GoStr} (t : GoStr)
    (h : goContains s pat = true) : goContains (s ++ t) pat = true := by
  induction s with
  | nil =>
      simp only [goContains, List.isEmpty_iff] at h
      subst h
      exact goContains_nil_pat t
  | cons a as ih =>
      simp only [goContains, Bool.or_eq_true] at h ⊢
      rcases h with h | h
      · exact Or.inl (goStarts_append t h)
      · exact Or.inr (ih h)

theorem hexDigitByte_isHex {n : Nat} (h : n < 16) :
    isHexByte (hexDigitByte n) = true := by
  unfold hexDigitByte isHexByte
  by_cases h10 : n < 10
  · simp only [if_pos h10, Bool.or_eq_true, Bool.and_eq_true, decide_eq_true_eq]
    left; omega
  · simp only [if_neg h10, Bool.or_eq_true, Bool.and_eq_true, decide_eq_true_eq]
    right; omega

theorem bytesToHex_isHex (bs : List Nat) : ∀ c ∈ bytesToHex bs, isHexByte c = true := by
  induction bs with
  | nil => intro c hc; cases hc
  | cons b bs ih =>
      intro c hc
      simp only [bytesToHex, List.mem_cons] at hc
      rcases hc with h | h | h
      · exact h ▸ hexDigitByte_isHex (Nat.mod_lt _ (by omega))
      · exact h ▸ hexDigitByte_isHex (Nat.mod_lt _ (by omega))
      · exact ih c h

/-- A pattern with a byte outside the hex alphabet never occurs in a rendered
    digest. -/
theorem goContains_hex_eq_false {bs : List Nat} {pat : GoStr} {b : Nat}
    (hb : b ∈ pat) (hbad : isHexByte b = false) :
    goContains (bytesToHex bs) pat = false := by
  refine goContains_eq_false_of_missing hb (fun hmem => ?_)
  rw [bytesToHex_isHex bs b hmem] at hbad
  cases hbad

/-- The fallback volatility rule can never fire on a hex fingerprint: each of
    the five forbidden substrings holds a byte outside the hex alphabet. -/
theorem fallbackVolatile_hex (bs : List Nat) :
    AutonomousEnforcer.fallbackVolatile (bytesToHex bs) = false := by
  unfold AutonomousEnforcer.fallbackVolatile
  rw [@goContains_hex_eq_false bs (lit "volatile") 118 (by decide) (by decide),
      @goContains_hex_eq_false bs (lit "crypto") 114 (by decide) (by decide),
      @goContains_hex_eq_false bs (lit "blockchain") 108 (by decide) (by decide),
      @goContains_hex_eq_false bs (lit "defi") 105 (by decide) (by decide),
      @goContains_hex_eq_false bs (lit "token") 116 (by decide) (by decide)]
  rfl

/-- No hex fingerprint contains an upper-case stablecoin code. -/
theorem isStablecoin_hex (bs : List Nat) :
    AutonomousEnforcer.isStablecoin (bytesToHex bs) = false := by
  unfold AutonomousEnforcer.isStablecoin
  rw [@goContains_hex_eq_false bs (lit "USDC") 85 (by decide) (by decide),
      @goContains_hex_eq_false bs (lit "USDT") 85 (by decide) (by decide),
      @goContains_hex_eq_false bs (lit "DAI") 68 (by decide) (by decide)]
  rfl

/-- Every call of `EnforceTransaction` returns `(false, nil)`: both gates are
    evaluated on the hex fingerprint, never on the input text. -/
theorem EnforceTransaction_rejects (mv : Option Bool) (log : List GoStr) (tx : GoStr) :
    (AutonomousEnforcer.EnforceTransaction mv log tx).1 = (false, none) := by
  unfold AutonomousEnforcer.EnforceTransaction AutonomousEnforcer.quantumDecrypt
  cases mv with
  | some b =>
      cases b
      · simp [modelOr, isStablecoin_hex]
      · simp [modelOr]
  | none => simp [modelOr, fallbackVolatile_hex, isStablecoin_hex]

/-- C1 counterexample: the transaction text "USDC transfer" contains none of
    the five forbidden substrings and contains USDC, so the claim says it must
    be allowed on model failure; the code rejects it, because both checks run
    on the hex fingerprint instead of the text. -/
theorem c1_counterexample :
    AutonomousEnforcer.fallbackVolatile (lit "USDC transfer") = false ∧
    AutonomousEnforcer.isStablecoin (lit "USDC transfer") = true ∧
    (AutonomousEnforcer.EnforceTransaction none [] (lit "USDC transfer")).1 ≠
      (true, none) := by
  refine ⟨by decide, by decide, ?_⟩
  rw [EnforceTransaction_rejects]
  decide

/-- C1 amended: on model failure `EnforceTransaction` returns allowed iff the
    keyed hex fingerprint of the text — not the text itself — passes the
    fallback volatility check and contains a whitelisted stablecoin code;
    since the fingerprint is lowercase hex this never holds, and every
    transaction (in particular one containing crypto alongside USDC) is
    rejected with no error. -/
theorem c1_amended_fingerprint_gate (log : List GoStr) (tx : GoStr) :
    ((AutonomousEnforcer.EnforceTransaction none log tx).1 = (true, none) ↔
      (AutonomousEnforcer.fallbackVolatile (AutonomousEnforcer.quantumDecrypt tx) = false ∧
       AutonomousEnforcer.isStablecoin (AutonomousEnforcer.quantumDecrypt tx) = true)) ∧
    (AutonomousEnforcer.EnforceTransaction none log tx).1 = (false, none) := by
  refine ⟨⟨fun hyp => ?_, fun hyp => ?_⟩, EnforceTransaction_rejects none log tx⟩
  · rw [EnforceTransaction_rejects] at hyp
    exact absurd hyp (by decide)
  · have := isStablecoin_hex (sha3_256 (tx ++ AutonomousEnforcer.quantumKey))
    rw [show AutonomousEnforcer.quantumDecrypt tx =
          bytesToHex (sha3_256 (tx ++ AutonomousEnforcer.quantumKey)) from rfl] at hyp
    rw [hyp.2] at this
    cases this

/-- C2: for every transaction text, every model verdict (including model
    failure) and every starting log, `EnforceTransaction` returns
    `(false, nil)` — no transaction is ever allowed, because the stablecoin
    whitelist is checked against the lowercase hex fingerprint, which can
    never contain USDC, USDT or DAI. -/
theorem c2_never_allowed (mv : Option Bool) (log : List GoStr) (tx : GoStr) :
    (AutonomousEnforcer.EnforceTransaction mv log tx).1 = (false, none) ∧
    AutonomousEnforcer.isStablecoin (AutonomousEnforcer.quantumDecrypt tx) = false :=
  ⟨EnforceTransaction_rejects mv log tx,
   isStablecoin_hex (sha3_256 (tx ++ AutonomousEnforcer.quantumKey))⟩

end PiSupernode

namespace PiSupernode

/-- C3 counterexample: the Pi-Coin Stablecoin Enforcer with 51 logged
    rejections (threshold 50, so threshold + 1).  One elapsed tick resets the
    log but appends no rule: `EvolvePiCoinRules` only prints, so the rule set
    does not grow by one as the claim requires. -/
theorem c3_counterexample :
    (PiCoinEnforcer.SelfAdaptTick PiCoinEnforcer.state51).rejectLog = [] ∧
    (PiCoinEnforcer.SelfAdaptTick PiCoinEnforcer.state51).rules =
      PiCoinEnforcer.initialRules ∧
    (PiCoinEnforcer.SelfAdaptTick PiCoinEnforcer.state51).rules.length ≠
      PiCoinEnforcer.initialRules.length + 1 := by
  refine ⟨by decide, by decide, by decide⟩

/-- C4: once oracle validation passes and a stablecoin type is extracted,
    `IssueStablecoin` refuses with an error (and an untouched state) when the
    predicted amount exceeds the remaining pool count for that type, and
    otherwise succeeds and decrements exactly that type's count by exactly the
    predicted amount, leaving every other count unchanged. -/
theorem c4_pool_gate (ma : Option Int) (rnd : Int) (st : IssuanceEngine.State)
    (req : GoStr)
    (hval : IssuanceEngine.oracleValidate req = true)
    (hne : ¬ IssuanceEngine.extractStablecoinType req = []) :
    (st.stablecoinPool (IssuanceEngine.extractStablecoinType req) <
        IssuanceEngine.resolvedAmount ma rnd →
      (IssuanceEngine.IssueStablecoin ma rnd st req).1 =
        Except.error (lit "insufficient pool for " ++
          IssuanceEngine.extractStablecoinType req) ∧
      (IssuanceEngine.IssueStablecoin ma rnd st req).2 = st) ∧
    (¬ st.stablecoinPool (IssuanceEngine.extractStablecoinType req) <
        IssuanceEngine.resolvedAmount ma rnd →
      exOk (IssuanceEngine.IssueStablecoin ma rnd st req).1 = true ∧
      (IssuanceEngine.IssueStablecoin ma rnd st req).2.stablecoinPool
          (IssuanceEngine.extractStablecoinType req) =
        st.stablecoinPool (IssuanceEngine.extractStablecoinType req) -
          IssuanceEngine.resolvedAmount ma rnd ∧
      ∀ x, ¬ x = IssuanceEngine.extractStablecoinType req →
        (IssuanceEngine.IssueStablecoin ma rnd st req).2.stablecoinPool x =
          st.stablecoinPool x) := by
  constructor
  · intro hlt
    unfold IssuanceEngine.IssueStablecoin
    rw [hval]
    simp only [Bool.not_true, Bool.false_eq_true, if_false, if_neg hne, if_pos hlt]
    exact ⟨trivial, trivial⟩
  · intro hge
    unfold IssuanceEngine.IssueStablecoin
    rw [hval]
    simp only [Bool.not_true, Bool.false_eq_true, if_false, if_neg hne, if_neg hge]
    refine ⟨rfl, ?_, fun x hx => ?_⟩
    · rw [if_pos trivial]
    · rw [if_neg hx]

theorem c4_witness :
    (IssuanceEngine.IssueStablecoin (some 2000) 0 IssuanceEngine.initialState
        (lit "issue stablecoin USDC 50")).2 = IssuanceEngine.initialState ∧
    exOk (IssuanceEngine.IssueStablecoin (some 60) 0 IssuanceEngine.initialState
        (lit "issue stablecoin USDC 50")).1 = true ∧
    (IssuanceEngine.IssueStablecoin (some 60) 0 IssuanceEngine.initialState
        (lit "issue stablecoin USDC 50")).2.stablecoinPool (lit "USDC") = 940 :=
  ⟨((c4_pool_gate (some 2000) 0 IssuanceEngine.initialState
      (lit "issue stablecoin USDC 50") (by decide) (by decide)).1 (by decide)).2,
   ((c4_pool_gate (some 60) 0 IssuanceEngine.initialState
      (lit "issue stablecoin USDC 50") (by decide) (by decide)).2 (by decide)).1,
   (((c4_pool_gate (some 60) 0 IssuanceEngine.initialState
      (lit "issue stablecoin USDC 50") (by decide) (by decide)).2 (by decide)).2.1).trans
     (by decide)⟩

/-- C10: whenever `IssueStablecoin` returns an error — oracle-validation
    rejection, missing stablecoin type, or insufficient pool — the stablecoin
    pool mapping is exactly the one before the call: every error return
    precedes the decrement. -/
theorem c10_error_preserves_pool (ma : Option Int) (rnd : Int)
    (st : IssuanceEngine.State) (req : GoStr)
    (h : exOk (IssuanceEngine.IssueStablecoin ma rnd st req).1 = false) :
    (IssuanceEngine.IssueStablecoin ma rnd st req).2.stablecoinPool =
      st.stablecoinPool := by
  by_cases h1 : IssuanceEngine.oracleValidate req = true
  · by_cases h2 : IssuanceEngine.extractStablecoinType req = []
    · unfold IssuanceEngine.IssueStablecoin
      rw [h1]
      simp only [Bool.not_true, Bool.false_eq_true, if_false, if_pos h2]
    · by_cases h3 : st.stablecoinPool (IssuanceEngine.extractStablecoinType req) <
        IssuanceEngine.resolvedAmount ma rnd
      · unfold IssuanceEngine.IssueStablecoin
        rw [h1]
        simp only [Bool.not_true, Bool.false_eq_true, if_false, if_neg h2, if_pos h3]
      · exfalso
        unfold IssuanceEngine.IssueStablecoin at h
        rw [h1] at h
        simp only [Bool.not_true, Bool.false_eq_true, if_false, if_neg h2,
          if_neg h3, exOk] at h
        exact Bool.noConfusion h
  · unfold IssuanceEngine.IssueStablecoin
    rw [Bool.not_eq_true] at h1
    rw [h1]
    simp only [Bool.not_false, if_true]

theorem c10_witness :
    (IssuanceEngine.IssueStablecoin none 5 IssuanceEngine.initialState
        (lit "issue volatile crypto 100")).2.stablecoinPool =
      IssuanceEngine.initialState.stablecoinPool :=
  c10_error_preserves_pool none 5 IssuanceEngine.initialState
    (lit "issue volatile crypto 100") (by decide)

end PiSupernode

namespace PiSupernode

theorem goStarts_self_append (pat t : GoStr) : goStarts pat (pat ++ t) = true := by
  induction pat with
  | nil => rfl
  | cons p ps ih => simp [goStarts, ih]

/-- C5: an `AddEntry` call whose data contains blockchain never touches the
    entry list, appends a log line beginning with the rejection marker, and
    errors; the sequence-identifier invariant `entry_1 … entry_n` is preserved
    by every call; and a call with no forbidden substring that passes (or
    falls back past) model validation appends exactly the next identifier
    `entry_(n+1)`. -/
theorem c5_ledger_sequencing (mv : Option Bool) (now : Nat) (st : Ledger.State)
    (data : GoStr) :
    (goContains data (lit "blockchain") = true →
      (Ledger.AddEntry mv now st data).2.entries = st.entries ∧
      (Ledger.AddEntry mv now st data).2.ledgerLog =
        st.ledgerLog ++ [lit "rejected: " ++ data] ∧
      exOk (Ledger.AddEntry mv now st data).1 = false) ∧
    (Ledger.seqOK st → Ledger.seqOK (Ledger.AddEntry mv now st data).2) ∧
    (Ledger.containsForbidden data = false → modelOr mv true = true →
      (Ledger.AddEntry mv now st data).2.entries.map Ledger.Entry.id =
        st.entries.map Ledger.Entry.id ++ [Ledger.entryId (st.entries.length + 1)]) := by
  refine ⟨fun hbc => ?_, fun hseq => ?_, fun hnf hvalid => ?_⟩
  · have hforb : Ledger.containsForbidden data = true := by
      unfold Ledger.containsForbidden
      rw [hbc]
      simp
    unfold Ledger.AddEntry
    rw [if_pos hforb]
    exact ⟨rfl, rfl, rfl⟩
  · unfold Ledger.AddEntry
    by_cases h1 : Ledger.containsForbidden data = true
    · rw [if_pos h1]
      exact hseq
    · rw [if_neg h1]
      cases hm : modelOr mv true
      · rw [if_pos (by decide)]
        exact hseq
      · rw [if_neg (by decide)]
        unfold Ledger.seqOK at hseq ⊢
        simp only [List.map_append, List.length_append, List.map_cons,
          List.map_nil, List.length_cons, List.length_nil]
        rw [hseq, List.range_succ, List.map_append]
        rfl
  · unfold Ledger.AddEntry
    rw [if_neg (by rw [hnf]; exact fun h => Bool.noConfusion h),
        if_neg (by rw [hvalid]; exact fun h => Bool.noConfusion h)]
    simp

theorem c5_witness :
    (Ledger.AddEntry none 0 Ledger.initialState (lit "blockchain entry")).2.entries =
      Ledger.initialState.entries ∧
    exOk (Ledger.AddEntry none 0 Ledger.initialState (lit "blockchain entry")).1 = false ∧
    Ledger.seqOK (Ledger.AddEntry none 0 Ledger.initialState
      (lit "stablecoin tx: USDC 100")).2 ∧
    (Ledger.AddEntry none 0 Ledger.initialState
        (lit "stablecoin tx: USDC 100")).2.entries.map Ledger.Entry.id =
      [Ledger.entryId 1] :=
  ⟨((c5_ledger_sequencing none 0 Ledger.initialState (lit "blockchain entry")).1
      (by decide)).1,
   ((c5_ledger_sequencing none 0 Ledger.initialState (lit "blockchain entry")).1
      (by decide)).2.2,
   ((c5_ledger_sequencing none 0 Ledger.initialState
      (lit "stablecoin tx: USDC 100")).2.1 rfl),
   (((c5_ledger_sequencing none 0 Ledger.initialState
      (lit "stablecoin tx: USDC 100")).2.2 (by decide) rfl).trans (by decide))⟩

/-- C6: for an event with no forbidden substring that the model scores above
    the anomaly threshold, `LogEvent` leaves the durable file untouched,
    appends an in-memory entry beginning with the anomaly marker, and returns
    an error; and an event that contains a forbidden substring or is scored
    anomalous is never written to the file (so only clean, non-anomalous
    events reach it). -/
theorem c6_anomaly_not_written (mv : Option Bool) (nowStr : GoStr)
    (st : Logger.State) (event : GoStr) :
    (Logger.containsForbidden event = false → mv = some true →
      (Logger.LogEvent mv nowStr st event).2.fileLines = st.fileLines ∧
      (Logger.LogEvent mv nowStr st event).2.logEntries =
        st.logEntries ++ [lit "anomaly: " ++ event] ∧
      exOk (Logger.LogEvent mv nowStr st event).1 = false) ∧
    (Logger.containsForbidden event = true ∨ modelOr mv false = true →
      (Logger.LogEvent mv nowStr st event).2.fileLines = st.fileLines) := by
  constructor
  · intro hnf hm
    subst hm
    unfold Logger.LogEvent
    rw [if_neg (by rw [hnf]; exact fun h => Bool.noConfusion h),
        if_pos (show modelOr (some true) false = true from rfl)]
    exact ⟨rfl, rfl, rfl⟩
  · intro h
    unfold Logger.LogEvent
    by_cases h1 : Logger.containsForbidden event = true
    · rw [if_pos h1]
    · rw [if_neg h1]
      have hm : modelOr mv false = true := by
        rcases h with h | h
        · exact absurd h h1
        · exact h
      rw [if_pos hm]

theorem c6_witness :
    (Logger.LogEvent (some true) (lit "2026-01-01T00:00:00Z") Logger.initialState
        (lit "payment event")).2.fileLines = Logger.initialState.fileLines ∧
    (Logger.LogEvent (some true) (lit "2026-01-01T00:00:00Z") Logger.initialState
        (lit "payment event")).2.logEntries =
      [lit "anomaly: " ++ lit "payment event"] ∧
    exOk (Logger.LogEvent (some true) (lit "2026-01-01T00:00:00Z")
        Logger.initialState (lit "payment event")).1 = false ∧
    (Logger.LogEvent none (lit "2026-01-01T00:00:00Z") Logger.initialState
        (lit "crypto spike")).2.fileLines = Logger.initialState.fileLines :=
  ⟨((c6_anomaly_not_written (some true) (lit "2026-01-01T00:00:00Z")
      Logger.initialState (lit "payment event")).1 (by decide) rfl).1,
   (((c6_anomaly_not_written (some true) (lit "2026-01-01T00:00:00Z")
      Logger.initialState (lit "payment event")).1 (by decide) rfl).2.1).trans (by decide),
   ((c6_anomaly_not_written (some true) (lit "2026-01-01T00:00:00Z")
      Logger.initialState (lit "payment event")).1 (by decide) rfl).2.2,
   (c6_anomaly_not_written none (lit "2026-01-01T00:00:00Z")
      Logger.initialState (lit "crypto spike")).2 (Or.inl (by decide))⟩

/-- C7: under model failure, converting from mining to USDC at amount 314159
    succeeds; the confirmation string of every successful conversion —
    whatever the amount argument — contains the fixed literal, because the
    success format string embeds it; and converting from exchange fails with
    the origin/target rejection error, since exchange matches no allowed
    origin. -/
theorem c7_fixed_literal_conversion (mv : Option Bool)
    (log log2 log3 : List GoStr) (origin target : GoStr) (amount : Int) :
    exOk (Converter.ConvertPiCoin none log2 (lit "mining") (lit "USDC") 314159).1 = true ∧
    (exOk (Converter.ConvertPiCoin mv log origin target amount).1 = true →
      goContains (okPayload (Converter.ConvertPiCoin mv log origin target amount).1)
        (lit "$314,159") = true) ∧
    (Converter.ConvertPiCoin none log3 (lit "exchange") (lit "USDT") 314159).1 =
      Except.error (lit "rejected: Pi Coin must be from mining/rewards/P2P and convert to stablecoin/fiat only") := by
  refine ⟨rfl, fun hok => ?_, rfl⟩
  unfold Converter.ConvertPiCoin at hok ⊢
  by_cases h1 : (!Converter.allowedOriginCheck origin ||
      !Converter.allowedTargetCheck target) = true
  · rw [if_pos h1] at hok
    simp [exOk] at hok
  · rw [if_neg h1] at hok ⊢
    by_cases h2 : (!modelOr mv (amount == 314159)) = true
    · rw [if_pos h2] at hok
      simp [exOk] at hok
    · rw [if_neg h2]
      simp only [okPayload]
      exact goContains_append_left _ (goContains_append_left _
        (goContains_append_left _ (goContains_append_left _
          (goContains_append_left _ (goContains_append_left _ (by decide))))))

theorem c7_witness :
    goContains (okPayload (Converter.ConvertPiCoin none []
        (lit "mining") (lit "USDC") 314159).1) (lit "$314,159") = true ∧
    (Converter.ConvertPiCoin none [] (lit "exchange") (lit "USDT") 314159).1 =
      Except.error (lit "rejected: Pi Coin must be from mining/rewards/P2P and convert to stablecoin/fiat only") :=
  ⟨(c7_fixed_literal_conversion none [] [] [] (lit "mining") (lit "USDC") 314159).2.1
      ((c7_fixed_literal_conversion none [] [] [] (lit "mining") (lit "USDC") 314159).1),
   (c7_fixed_literal_conversion none [] [] [] (lit "mining") (lit "USDC") 314159).2.2⟩

/-- C8: for the Global Regulatory enforcer under model failure, with a
    flagged-true jurisdiction and KYC: a text failing the textual fallback
    rule yields `(false, nil)` with the non-compliance log line; a text
    passing the fallback but failing the additional global check yields false
    together with an error; a text passing both yields `(true, nil)` (the
    audit fingerprint `quantumAudit` is computed and only printed). -/
theorem c8_regulatory_fallback (log : List GoStr) (tx j : GoStr)
    (hj : RegulatoryEnforcer.regulations j = true) :
    (RegulatoryEnforcer.fallbackCompliant tx = false →
      RegulatoryEnforcer.EnforcePiCoinRegulatoryCompliance none log tx j true =
        ((false, none), log ++ [lit "non-compliant: " ++ tx])) ∧
    (RegulatoryEnforcer.fallbackCompliant tx = true →
      RegulatoryEnforcer.isGlobalStablecoinCompliant tx = false →
      (RegulatoryEnforcer.EnforcePiCoinRegulatoryCompliance none log tx j true).1.1 =
        false ∧
      ((RegulatoryEnforcer.EnforcePiCoinRegulatoryCompliance none log tx j
          true).1.2).isSome = true) ∧
    (RegulatoryEnforcer.fallbackCompliant tx = true →
      RegulatoryEnforcer.isGlobalStablecoinCompliant tx = true →
      RegulatoryEnforcer.EnforcePiCoinRegulatoryCompliance none log tx j true =
        ((true, none), log)) := by
  unfold RegulatoryEnforcer.EnforcePiCoinRegulatoryCompliance
  rw [hj]
  refine ⟨fun h1 => ?_, fun h1 h2 => ?_, fun h1 h2 => ?_⟩
  · simp [modelOr, h1]
  · simp [modelOr, h1, h2]
  · simp [modelOr, h1, h2]

theorem c8_witness :
    RegulatoryEnforcer.EnforcePiCoinRegulatoryCompliance none [] (lit "plain tx")
        (lit "IMF") true = ((false, none), [lit "non-compliant: " ++ lit "plain tx"]) ∧
    ((RegulatoryEnforcer.EnforcePiCoinRegulatoryCompliance none []
        (lit "Pi coin worth $314,159") (lit "IMF") true).1.2).isSome = true ∧
    RegulatoryEnforcer.EnforcePiCoinRegulatoryCompliance none []
        (lit "Pi coin worth $314,159 reserve-backed transparent") (lit "IMF") true =
      ((true, none), []) :=
  ⟨((c8_regulatory_fallback [] (lit "plain tx") (lit "IMF") (by decide)).1
      (by decide)).trans (by simp),
   ((c8_regulatory_fallback [] (lit "Pi coin worth $314,159") (lit "IMF")
      (by decide)).2.1 (by decide) (by decide)).2,
   (c8_regulatory_fallback [] (lit "Pi coin worth $314,159 reserve-backed transparent")
      (lit "IMF") (by decide)).2.2 (by decide) (by decide)⟩

/-- C9: for any issuer whose prediction record still holds its zero value (no
    oracle callback has fulfilled a prediction for it), `issueStablecoin`
    always reverts: its body reads the record immediately after sending the
    oracle request, so the amount check `require(amount > 0)` fails — the
    issuance can never complete in the transaction that first requests a
    prediction. -/
theorem c9_zero_prediction_reverts (st : IssuanceOracle.ContractState)
    (asset : GoStr) (sender issuer : IssuanceOracle.Addr) (ts : Nat)
    (h : st.predictedAmount issuer = 0) :
    exOk (IssuanceOracle.issueStablecoin st asset sender issuer ts) = false := by
  unfold IssuanceOracle.issueStablecoin
  by_cases h1 : st.authorizedIssuers sender = true
  · rw [h1]
    by_cases h2 : IssuanceOracle.isStablecoinSol asset = true
    · rw [h2]
      by_cases h3 : IssuanceOracle.isRejectedAsset asset = true
      · simp only [Bool.not_true, Bool.false_eq_true, if_false, if_pos h3]
        rfl
      · simp only [Bool.not_true, Bool.false_eq_true, if_false, if_neg h3]
        rw [h]
        rfl
    · rw [Bool.not_eq_true] at h2
      rw [h2]
      rfl
  · rw [Bool.not_eq_true] at h1
    rw [h1]
    rfl

theorem c9_witness :
    exOk (IssuanceOracle.issueStablecoin (IssuanceOracle.deployState 7)
        (lit "USDC") 7 7 1000) = false :=
  c9_zero_prediction_reverts (IssuanceOracle.deployState 7) (lit "USDC") 7 7 1000 rfl

end PiSupernode

namespace PiSupernode

theorem prefixTick_clears (ps : List GoStr) (th : Nat) (s : EvoState)
    (h : qualCount ps s.eventLog = th + 1) :
    prefixTick ps th s = { eventLog := [], rules := s.rules } := by
  unfold prefixTick
  rw [if_pos (by omega)]

theorem prefixTick_fixed (ps : List GoStr) (th : Nat) (s : EvoState)
    (h : qualCount ps s.eventLog = th) : prefixTick ps th s = s := by
  unfold prefixTick
  rw [if_neg (by omega)]

theorem lenTick_clears (th : Nat) (s : EvoState)
    (h : s.eventLog.length = th + 1) :
    lenTick th s = { eventLog := [], rules := s.rules } := by
  unfold lenTick
  rw [if_pos (by omega)]

theorem lenTick_fixed (th : Nat) (s : EvoState) (h : s.eventLog.length = th) :
    lenTick th s = s := by
  unfold lenTick
  rw [if_neg (by omega)]

theorem issuanceTick_fixed (s : EvoState) (h : 10 ≤ s.eventLog.length) :
    IssuanceEngine.SelfOptimizeTick s = s := by
  unfold IssuanceEngine.SelfOptimizeTick
  rw [if_neg (by omega)]

theorem issuanceTick_clears (s : EvoState) (h : s.eventLog.length < 10) :
    IssuanceEngine.SelfOptimizeTick s = { eventLog := [], rules := s.rules } := by
  unfold IssuanceEngine.SelfOptimizeTick
  rw [if_pos h]

theorem piCoinTick_clears (s : PiCoinEnforcer.State) (h : s.rejectLog.length = 51) :
    PiCoinEnforcer.SelfAdaptTick s = { rejectLog := [], rules := s.rules } := by
  unfold PiCoinEnforcer.SelfAdaptTick PiCoinEnforcer.EvolvePiCoinRules
  rw [if_pos (by omega)]

theorem piCoinTick_fixed (s : PiCoinEnforcer.State) (h : s.rejectLog.length = 50) :
    PiCoinEnforcer.SelfAdaptTick s = s := by
  unfold PiCoinEnforcer.SelfAdaptTick
  rw [if_neg (by omega)]

theorem regTick_clears (t : RegulatoryEnforcer.CState)
    (h : RegulatoryEnforcer.breachCount t.complianceLog = 51) :
    RegulatoryEnforcer.SelfAdaptTick t = { complianceLog := [], rules := t.rules } := by
  unfold RegulatoryEnforcer.SelfAdaptTick RegulatoryEnforcer.EvolveComplianceRules
  rw [if_pos (by omega)]

theorem regTick_fixed (t : RegulatoryEnforcer.CState)
    (h : RegulatoryEnforcer.breachCount t.complianceLog = 50) :
    RegulatoryEnforcer.SelfAdaptTick t = t := by
  unfold RegulatoryEnforcer.SelfAdaptTick
  rw [if_neg (by omega)]

/-- C3 amended, covering every Rule-Evolution-pattern service of the
    paragraph-4.2 table: one elapsed tick never changes any service's Rule
    Set (the Evolve/Tune helpers only print a notice).  For each
    high-failure-trigger service — every row except the Issuance Engine — a
    tick from exactly threshold + 1 qualifying Event-Log entries clears the
    Event Log to empty and leaves the Rule Set unchanged, while a tick from
    exactly threshold qualifying entries changes nothing.  The Issuance
    Engine's trigger is inverted (low activity): a tick from 11 (threshold
    + 1) or 10 (threshold) entries changes nothing, and a tick from fewer
    than 10 entries clears the log, again leaving the rules unchanged. -/
theorem c3_amended_ticks_preserve_rules (u : EvoState)
    (s : PiCoinEnforcer.State) (t : RegulatoryEnforcer.CState) :
    (u.eventLog.length = 101 →
      AutonomousEnforcer.SelfHealTick u = { eventLog := [], rules := u.rules }) ∧
    (u.eventLog.length = 100 → AutonomousEnforcer.SelfHealTick u = u) ∧
    (u.eventLog.length = 76 →
      ZeroTrustValidator.SelfAdaptTick u = { eventLog := [], rules := u.rules }) ∧
    (u.eventLog.length = 75 → ZeroTrustValidator.SelfAdaptTick u = u) ∧
    (s.rejectLog.length = 51 →
      PiCoinEnforcer.SelfAdaptTick s = { rejectLog := [], rules := s.rules }) ∧
    (s.rejectLog.length = 50 → PiCoinEnforcer.SelfAdaptTick s = s) ∧
    (RegulatoryEnforcer.breachCount t.complianceLog = 51 →
      RegulatoryEnforcer.SelfAdaptTick t = { complianceLog := [], rules := t.rules }) ∧
    (RegulatoryEnforcer.breachCount t.complianceLog = 50 →
      RegulatoryEnforcer.SelfAdaptTick t = t) ∧
    (qualCount [lit "breach", lit "rejected"] u.eventLog = 51 →
      IOSCOEnforcer.SelfAdaptTick u = { eventLog := [], rules := u.rules }) ∧
    (qualCount [lit "breach", lit "rejected"] u.eventLog = 50 → IOSCOEnforcer.SelfAdaptTick u = u) ∧
    (qualCount [lit "breach", lit "rejected"] u.eventLog = 51 →
      ILOEnforcer.SelfAdaptTick u = { eventLog := [], rules := u.rules }) ∧
    (qualCount [lit "breach", lit "rejected"] u.eventLog = 50 → ILOEnforcer.SelfAdaptTick u = u) ∧
    (qualCount [lit "rejected", lit "invalid"] u.eventLog = 11 →
      Ledger.SelfAuditTick u = { eventLog := [], rules := u.rules }) ∧
    (qualCount [lit "rejected", lit "invalid"] u.eventLog = 10 → Ledger.SelfAuditTick u = u) ∧
    (qualCount [lit "anomaly"] u.eventLog = 11 →
      Logger.SelfMonitorTick u = { eventLog := [], rules := u.rules }) ∧
    (qualCount [lit "anomaly"] u.eventLog = 10 → Logger.SelfMonitorTick u = u) ∧
    (qualCount [lit "rejected", lit "low priority"] u.eventLog = 16 →
      QuantumBackup.SelfRecoverTick u = { eventLog := [], rules := u.rules }) ∧
    (qualCount [lit "rejected", lit "low priority"] u.eventLog = 15 → QuantumBackup.SelfRecoverTick u = u) ∧
    (qualCount [lit "failed", lit "rejected"] u.eventLog = 26 →
      Converter.SelfOptimizeTick u = { eventLog := [], rules := u.rules }) ∧
    (qualCount [lit "failed", lit "rejected"] u.eventLog = 25 → Converter.SelfOptimizeTick u = u) ∧
    (u.eventLog.length = 11 → IssuanceEngine.SelfOptimizeTick u = u) ∧
    (u.eventLog.length = 10 → IssuanceEngine.SelfOptimizeTick u = u) ∧
    (u.eventLog.length < 10 →
      IssuanceEngine.SelfOptimizeTick u = { eventLog := [], rules := u.rules }) ∧
    (qualCount [lit "failed", lit "rejected"] u.eventLog = 9 →
      HyperTester.SelfImproveTick u = { eventLog := [], rules := u.rules }) ∧
    (qualCount [lit "failed", lit "rejected"] u.eventLog = 8 → HyperTester.SelfImproveTick u = u) ∧
    (qualCount [lit "failed", lit "rejected"] u.eventLog = 9 →
      PiCoinHyperTester.SelfImproveTick u = { eventLog := [], rules := u.rules }) ∧
    (qualCount [lit "failed", lit "rejected"] u.eventLog = 8 → PiCoinHyperTester.SelfImproveTick u = u) ∧
    (qualCount [lit "failed", lit "rejected"] u.eventLog = 13 →
      LoadTester.SelfScaleTick u = { eventLog := [], rules := u.rules }) ∧
    (qualCount [lit "failed", lit "rejected"] u.eventLog = 12 → LoadTester.SelfScaleTick u = u) ∧
    (qualCount [lit "failed", lit "rejected"] u.eventLog = 13 →
      PiCoinLoadTester.SelfScaleTick u = { eventLog := [], rules := u.rules }) ∧
    (qualCount [lit "failed", lit "rejected"] u.eventLog = 12 → PiCoinLoadTester.SelfScaleTick u = u) ∧
    (u.eventLog.length = 101 →
      GraphQLServer.SelfTuneTick u = { eventLog := [], rules := u.rules }) ∧
    (u.eventLog.length = 100 → GraphQLServer.SelfTuneTick u = u) ∧
    (u.eventLog.length = 101 →
      PiCoinAPI.SelfTuneTick u = { eventLog := [], rules := u.rules }) ∧
    (u.eventLog.length = 100 → PiCoinAPI.SelfTuneTick u = u) :=
  ⟨fun h => lenTick_clears 100 u h,
   fun h => lenTick_fixed 100 u h,
   fun h => lenTick_clears 75 u h,
   fun h => lenTick_fixed 75 u h,
   fun h => piCoinTick_clears s h,
   fun h => piCoinTick_fixed s h,
   fun h => regTick_clears t h,
   fun h => regTick_fixed t h,
   fun h => prefixTick_clears [lit "breach", lit "rejected"] 50 u h,
   fun h => prefixTick_fixed [lit "breach", lit "rejected"] 50 u h,
   fun h => prefixTick_clears [lit "breach", lit "rejected"] 50 u h,
   fun h => prefixTick_fixed [lit "breach", lit "rejected"] 50 u h,
   fun h => prefixTick_clears [lit "rejected", lit "invalid"] 10 u h,
   fun h => prefixTick_fixed [lit "rejected", lit "invalid"] 10 u h,
   fun h => prefixTick_clears [lit "anomaly"] 10 u h,
   fun h => prefixTick_fixed [lit "anomaly"] 10 u h,
   fun h => prefixTick_clears [lit "rejected", lit "low priority"] 15 u h,
   fun h => prefixTick_fixed [lit "rejected", lit "low priority"] 15 u h,
   fun h => prefixTick_clears [lit "failed", lit "rejected"] 25 u h,
   fun h => prefixTick_fixed [lit "failed", lit "rejected"] 25 u h,
   fun h => issuanceTick_fixed u (by omega),
   fun h => issuanceTick_fixed u (by omega),
   fun h => issuanceTick_clears u h,
   fun h => prefixTick_clears [lit "failed", lit "rejected"] 8 u h,
   fun h => prefixTick_fixed [lit "failed", lit "rejected"] 8 u h,
   fun h => prefixTick_clears [lit "failed", lit "rejected"] 8 u h,
   fun h => prefixTick_fixed [lit "failed", lit "rejected"] 8 u h,
   fun h => prefixTick_clears [lit "failed", lit "rejected"] 12 u h,
   fun h => prefixTick_fixed [lit "failed", lit "rejected"] 12 u h,
   fun h => prefixTick_clears [lit "failed", lit "rejected"] 12 u h,
   fun h => prefixTick_fixed [lit "failed", lit "rejected"] 12 u h,
   fun h => lenTick_clears 100 u h,
   fun h => lenTick_fixed 100 u h,
   fun h => lenTick_clears 100 u h,
   fun h => lenTick_fixed 100 u h⟩

theorem c3_amended_ticks_witness :
    AutonomousEnforcer.SelfHealTick (evoN 101 "rejected: x") =
      { eventLog := [], rules := (evoN 101 "rejected: x").rules } ∧
    AutonomousEnforcer.SelfHealTick (evoN 100 "rejected: x") = evoN 100 "rejected: x" ∧
    ZeroTrustValidator.SelfAdaptTick (evoN 76 "rejected: x") =
      { eventLog := [], rules := (evoN 76 "rejected: x").rules } ∧
    ZeroTrustValidator.SelfAdaptTick (evoN 75 "rejected: x") = evoN 75 "rejected: x" ∧
    PiCoinEnforcer.SelfAdaptTick PiCoinEnforcer.state51 =
      { rejectLog := [], rules := PiCoinEnforcer.state51.rules } ∧
    PiCoinEnforcer.SelfAdaptTick PiCoinEnforcer.state50 = PiCoinEnforcer.state50 ∧
    RegulatoryEnforcer.SelfAdaptTick RegulatoryEnforcer.cstate51 =
      { complianceLog := [], rules := RegulatoryEnforcer.cstate51.rules } ∧
    RegulatoryEnforcer.SelfAdaptTick RegulatoryEnforcer.cstate50 =
      RegulatoryEnforcer.cstate50 ∧
    IOSCOEnforcer.SelfAdaptTick (evoN 51 "breach: tx") =
      { eventLog := [], rules := (evoN 51 "breach: tx").rules } ∧
    IOSCOEnforcer.SelfAdaptTick (evoN 50 "breach: tx") = evoN 50 "breach: tx" ∧
    ILOEnforcer.SelfAdaptTick (evoN 51 "breach: tx") =
      { eventLog := [], rules := (evoN 51 "breach: tx").rules } ∧
    ILOEnforcer.SelfAdaptTick (evoN 50 "breach: tx") = evoN 50 "breach: tx" ∧
    Ledger.SelfAuditTick (evoN 11 "rejected: d") =
      { eventLog := [], rules := (evoN 11 "rejected: d").rules } ∧
    Ledger.SelfAuditTick (evoN 10 "rejected: d") = evoN 10 "rejected: d" ∧
    Logger.SelfMonitorTick (evoN 11 "anomaly: e") =
      { eventLog := [], rules := (evoN 11 "anomaly: e").rules } ∧
    Logger.SelfMonitorTick (evoN 10 "anomaly: e") = evoN 10 "anomaly: e" ∧
    QuantumBackup.SelfRecoverTick (evoN 16 "low priority: d") =
      { eventLog := [], rules := (evoN 16 "low priority: d").rules } ∧
    QuantumBackup.SelfRecoverTick (evoN 15 "low priority: d") = evoN 15 "low priority: d" ∧
    Converter.SelfOptimizeTick (evoN 26 "failed conversion: 9") =
      { eventLog := [], rules := (evoN 26 "failed conversion: 9").rules } ∧
    Converter.SelfOptimizeTick (evoN 25 "failed conversion: 9") = evoN 25 "failed conversion: 9" ∧
    IssuanceEngine.SelfOptimizeTick (evoN 11 "Issued 5 USDC") = evoN 11 "Issued 5 USDC" ∧
    IssuanceEngine.SelfOptimizeTick (evoN 10 "Issued 5 USDC") = evoN 10 "Issued 5 USDC" ∧
    IssuanceEngine.SelfOptimizeTick (evoN 3 "Issued 5 USDC") =
      { eventLog := [], rules := (evoN 3 "Issued 5 USDC").rules } ∧
    HyperTester.SelfImproveTick (evoN 9 "failed: t") =
      { eventLog := [], rules := (evoN 9 "failed: t").rules } ∧
    HyperTester.SelfImproveTick (evoN 8 "failed: t") = evoN 8 "failed: t" ∧
    PiCoinHyperTester.SelfImproveTick (evoN 9 "failed: t") =
      { eventLog := [], rules := (evoN 9 "failed: t").rules } ∧
    PiCoinHyperTester.SelfImproveTick (evoN 8 "failed: t") = evoN 8 "failed: t" ∧
    LoadTester.SelfScaleTick (evoN 13 "failed: l") =
      { eventLog := [], rules := (evoN 13 "failed: l").rules } ∧
    LoadTester.SelfScaleTick (evoN 12 "failed: l") = evoN 12 "failed: l" ∧
    PiCoinLoadTester.SelfScaleTick (evoN 13 "failed: l") =
      { eventLog := [], rules := (evoN 13 "failed: l").rules } ∧
    PiCoinLoadTester.SelfScaleTick (evoN 12 "failed: l") = evoN 12 "failed: l" ∧
    GraphQLServer.SelfTuneTick (evoN 101 "query: q") =
      { eventLog := [], rules := (evoN 101 "query: q").rules } ∧
    GraphQLServer.SelfTuneTick (evoN 100 "query: q") = evoN 100 "query: q" ∧
    PiCoinAPI.SelfTuneTick (evoN 101 "query: q") =
      { eventLog := [], rules := (evoN 101 "query: q").rules } ∧
    PiCoinAPI.SelfTuneTick (evoN 100 "query: q") = evoN 100 "query: q" :=
  ⟨(c3_amended_ticks_preserve_rules (evoN 101 "rejected: x") PiCoinEnforcer.state51 RegulatoryEnforcer.cstate51).1 (by decide),
   (c3_amended_ticks_preserve_rules (evoN 100 "rejected: x") PiCoinEnforcer.state51 RegulatoryEnforcer.cstate51).2.1 (by decide),
   (c3_amended_ticks_preserve_rules (evoN 76 "rejected: x") PiCoinEnforcer.state51 RegulatoryEnforcer.cstate51).2.2.1 (by decide),
   (c3_amended_ticks_preserve_rules (evoN 75 "rejected: x") PiCoinEnforcer.state51 RegulatoryEnforcer.cstate51).2.2.2.1 (by decide),
   (c3_amended_ticks_preserve_rules (evoN 0 "x") PiCoinEnforcer.state51 RegulatoryEnforcer.cstate51).2.2.2.2.1 (by decide),
   (c3_amended_ticks_preserve_rules (evoN 0 "x") PiCoinEnforcer.state50 RegulatoryEnforcer.cstate51).2.2.2.2.2.1 (by decide),
   (c3_amended_ticks_preserve_rules (evoN 0 "x") PiCoinEnforcer.state51 RegulatoryEnforcer.cstate51).2.2.2.2.2.2.1 (by decide),
   (c3_amended_ticks_preserve_rules (evoN 0 "x") PiCoinEnforcer.state51 RegulatoryEnforcer.cstate50).2.2.2.2.2.2.2.1 (by decide),
   (c3_amended_ticks_preserve_rules (evoN 51 "breach: tx") PiCoinEnforcer.state51 RegulatoryEnforcer.cstate51).2.2.2.2.2.2.2.2.1 (by decide),
   (c3_amended_ticks_preserve_rules (evoN 50 "breach: tx") PiCoinEnforcer.state51 RegulatoryEnforcer.cstate51).2.2.2.2.2.2.2.2.2.1 (by decide),
   (c3_amended_ticks_preserve_rules (evoN 51 "breach: tx") PiCoinEnforcer.state51 RegulatoryEnforcer.cstate51).2.2.2.2.2.2.2.2.2.2.1 (by decide),
   (c3_amended_ticks_preserve_rules (evoN 50 "breach: tx") PiCoinEnforcer.state51 RegulatoryEnforcer.cstate51).2.2.2.2.2.2.2.2.2.2.2.1 (by decide),
   (c3_amended_ticks_preserve_rules (evoN 11 "rejected: d") PiCoinEnforcer.state51 RegulatoryEnforcer.cstate51).2.2.2.2.2.2.2.2.2.2.2.2.1 (by decide),
   (c3_amended_ticks_preserve_rules (evoN 10 "rejected: d") PiCoinEnforcer.state51 RegulatoryEnforcer.cstate51).2.2.2.2.2.2.2.2.2.2.2.2.2.1 (by decide),
   (c3_amended_ticks_preserve_rules (evoN 11 "anomaly: e") PiCoinEnforcer.state51 RegulatoryEnforcer.cstate51).2.2.2.2.2.2.2.2.2.2.2.2.2.2.1 (by decide),
   (c3_amended_ticks_preserve_rules (evoN 10 "anomaly: e") PiCoinEnforcer.state51 RegulatoryEnforcer.cstate51).2.2.2.2.2.2.2.2.2.2.2.2.2.2.2.1 (by decide),
   (c3_amended_ticks_preserve_rules (evoN 16 "low priority: d") PiCoinEnforcer.state51 RegulatoryEnforcer.cstate51).2.2.2.2.2.2.2.2.2.2.2.2.2.2.2.2.1 (by decide),
   (c3_amended_ticks_preserve_rules (evoN 15 "low priority: d") PiCoinEnforcer.state51 RegulatoryEnforcer.cstate51).2.2.2.2.2.2.2.2.2.2.2.2.2.2.2.2.2.1 (by decide),
   (c3_amended_ticks_preserve_rules (evoN 26 "failed conversion: 9") PiCoinEnforcer.state51 RegulatoryEnforcer.cstate51).2.2.2.2.2.2.2.2.2.2.2.2.2.2.2.2.2.2.1 (by decide),
   (c3_amended_ticks_preserve_rules (evoN 25 "failed conversion: 9") PiCoinEnforcer.state51 RegulatoryEnforcer.cstate51).2.2.2.2.2.2.2.2.2.2.2.2.2.2.2.2.2.2.2.1 (by decide),
   (c3_amended_ticks_preserve_rules (evoN 11 "Issued 5 USDC") PiCoinEnforcer.state51 RegulatoryEnforcer.cstate51).2.2.2.2.2.2.2.2.2.2.2.2.2.2.2.2.2.2.2.2.1 (by decide),
   (c3_amended_ticks_preserve_rules (evoN 10 "Issued 5 USDC") PiCoinEnforcer.state51 RegulatoryEnforcer.cstate51).2.2.2.2.2.2.2.2.2.2.2.2.2.2.2.2.2.2.2.2.2.1 (by decide),
   (c3_amended_ticks_preserve_rules (evoN 3 "Issued 5 USDC") PiCoinEnforcer.state51 RegulatoryEnforcer.cstate51).2.2.2.2.2.2.2.2.2.2.2.2.2.2.2.2.2.2.2.2.2.2.1 (by decide),
   (c3_amended_ticks_preserve_rules (evoN 9 "failed: t") PiCoinEnforcer.state51 RegulatoryEnforcer.cstate51).2.2.2.2.2.2.2.2.2.2.2.2.2.2.2.2.2.2.2.2.2.2.2.1 (by decide),
   (c3_amended_ticks_preserve_rules (evoN 8 "failed: t") PiCoinEnforcer.state51 RegulatoryEnforcer.cstate51).2.2.2.2.2.2.2.2.2.2.2.2.2.2.2.2.2.2.2.2.2.2.2.2.1 (by decide),
   (c3_amended_ticks_preserve_rules (evoN 9 "failed: t") PiCoinEnforcer.state51 RegulatoryEnforcer.cstate51).2.2.2.2.2.2.2.2.2.2.2.2.2.2.2.2.2.2.2.2.2.2.2.2.2.1 (by decide),
   (c3_amended_ticks_preserve_rules (evoN 8 "failed: t") PiCoinEnforcer.state51 RegulatoryEnforcer.cstate51).2.2.2.2.2.2.2.2.2.2.2.2.2.2.2.2.2.2.2.2.2.2.2.2.2.2.1 (by decide),
   (c3_amended_ticks_preserve_rules (evoN 13 "failed: l") PiCoinEnforcer.state51 RegulatoryEnforcer.cstate51).2.2.2.2.2.2.2.2.2.2.2.2.2.2.2.2.2.2.2.2.2.2.2.2.2.2.2.1 (by decide),
   (c3_amended_ticks_preserve_rules (evoN 12 "failed: l") PiCoinEnforcer.state51 RegulatoryEnforcer.cstate51).2.2.2.2.2.2.2.2.2.2.2.2.2.2.2.2.2.2.2.2.2.2.2.2.2.2.2.2.1 (by decide),
   (c3_amended_ticks_preserve_rules (evoN 13 "failed: l") PiCoinEnforcer.state51 RegulatoryEnforcer.cstate51).2.2.2.2.2.2.2.2.2.2.2.2.2.2.2.2.2.2.2.2.2.2.2.2.2.2.2.2.2.1 (by decide),
   (c3_amended_ticks_preserve_rules (evoN 12 "failed: l") PiCoinEnforcer.state51 RegulatoryEnforcer.cstate51).2.2.2.2.2.2.2.2.2.2.2.2.2.2.2.2.2.2.2.2.2.2.2.2.2.2.2.2.2.2.1 (by decide),
   (c3_amended_ticks_preserve_rules (evoN 101 "query: q") PiCoinEnforcer.state51 RegulatoryEnforcer.cstate51).2.2.2.2.2.2.2.2.2.2.2.2.2.2.2.2.2.2.2.2.2.2.2.2.2.2.2.2.2.2.2.1 (by decide),
   (c3_amended_ticks_preserve_rules (evoN 100 "query: q") PiCoinEnforcer.state51 RegulatoryEnforcer.cstate51).2.2.2.2.2.2.2.2.2.2.2.2.2.2.2.2.2.2.2.2.2.2.2.2.2.2.2.2.2.2.2.2.1 (by decide),
   (c3_amended_ticks_preserve_rules (evoN 101 "query: q") PiCoinEnforcer.state51 RegulatoryEnforcer.cstate51).2.2.2.2.2.2.2.2.2.2.2.2.2.2.2.2.2.2.2.2.2.2.2.2.2.2.2.2.2.2.2.2.2.1 (by decide),
   (c3_amended_ticks_preserve_rules (evoN 100 "query: q") PiCoinEnforcer.state51 RegulatoryEnforcer.cstate51).2.2.2.2.2.2.2.2.2.2.2.2.2.2.2.2.2.2.2.2.2.2.2.2.2.2.2.2.2.2.2.2.2.2 (by decide)⟩

end PiSupernode
